import Mathlib

/-
Verification of the taskchampion JNI bridge (src/jni_bindings.rs).

The bridge exposes a taskchampion Replica (the entity store) to a JVM host:
a registry maps integer handles to per-replica locks, and each native call
resolves its handle, builds an operation batch, and commits it to the store.
Below, the bridge-side control flow and batch construction are transcribed
from src/jni_bindings.rs; the store-side application of operation batches
(the external taskchampion crate) is modelled from the specification of the
entity store (field map, tag set, annotation list, status, description).
-/

namespace TaskchampionJni

/-- Entity ids: a parsed UUID is modelled as a natural number; 0 stands for
the nil UUID (`Uuid::is_nil`). -/
abbrev Uuid := Nat

/-- Entity status, from the three accepted strings in nativeTaskSetStatus
(src/jni_bindings.rs lines 475-483). -/
inductive Status where
  | pending
  | completed
  | deleted
deriving DecidableEq

/-- Modelled from the spec: an Entity holds an open-ended key/value field
map, a set of tags, a list of annotations (timestamp + text), a status and
a description. -/
structure Task where
  fields : List (String × String)
  tags : List String
  annots : List (Int × String)
  status : Status
  description : String
deriving DecidableEq

/-- A freshly created entity: empty field map, no tags, no annotations. -/
def Task.empty : Task := ⟨[], [], [], Status.pending, ""⟩

/-- Set a key to a value in an association-list field map, replacing any
existing binding for that key (HashMap-insert semantics). -/
def setKV : List (String × String) → String → String → List (String × String)
  | [], k, v => [(k, v)]
  | (k2, v2) :: rest, k, v =>
      if k2 = k then (k, v) :: rest else (k2, v2) :: setKV rest k v

/-- Delete a key from the field map (set_value with a null value). -/
def delKV (m : List (String × String)) (k : String) : List (String × String) :=
  m.filter (fun p => p.1 ≠ k)

/-- Look a key up in a field map. -/
def getKV (m : List (String × String)) (k : String) : Option String :=
  List.lookup k m

/-- One store mutation, as pushed into an Operations batch by the native
functions in src/jni_bindings.rs (each constructor corresponds to one call
the bridge makes on the taskchampion Task/Operations API). -/
inductive Op where
  | undoPoint
  | create (u : Uuid)
  | setValue (u : Uuid) (k : String) (v : Option String)
  | setDescription (u : Uuid) (d : String)
  | setStatus (u : Uuid) (s : Status)
  | addTag (u : Uuid) (t : String)
  | removeTag (u : Uuid) (t : String)
  | addAnnot (u : Uuid) (entry : Int) (d : String)
  | rmAnnot (u : Uuid) (entry : Int)
deriving DecidableEq

/-- The store: live entities keyed by id. -/
abbrev Store := List (Uuid × Task)

/-- Apply a function to the task stored under id u. -/
def updateTask (st : Store) (u : Uuid) (f : Task → Task) : Store :=
  st.map fun p => if p.1 = u then (p.1, f p.2) else p

/-- Modelled from the spec: how the external store applies one committed
operation. Field updates overwrite, tags behave as a set, annotations are
keyed by their entry timestamp. -/
def applyOp (st : Store) : Op → Store
  | Op.undoPoint => st
  | Op.create u => (u, Task.empty) :: st
  | Op.setValue u k v =>
      updateTask st u fun t =>
        { t with fields := match v with
                           | some s => setKV t.fields k s
                           | none => delKV t.fields k }
  | Op.setDescription u d => updateTask st u fun t => { t with description := d }
  | Op.setStatus u s => updateTask st u fun t => { t with status := s }
  | Op.addTag u tg =>
      updateTask st u fun t =>
        { t with tags := if tg ∈ t.tags then t.tags else t.tags ++ [tg] }
  | Op.removeTag u tg =>
      updateTask st u fun t => { t with tags := t.tags.filter fun x => !(x == tg) }
  | Op.addAnnot u e d =>
      updateTask st u fun t => { t with annots := t.annots ++ [(e, d)] }
  | Op.rmAnnot u e =>
      updateTask st u fun t => { t with annots := t.annots.filter fun a => !(a.1 == e) }

/-- Commit a whole operation batch (Replica::commit_operations): the batch
is applied in order, as a single unit. -/
def commitOps (st : Store) (ops : List Op) : Store :=
  ops.foldl applyOp st

/- ----------------------------------------------------------------- -/
/- Handle registry (REPLICA_LOCKS) and lifecycle                      -/
/- ----------------------------------------------------------------- -/

/-- The registry REPLICA_LOCKS, reduced to the set of handles that own a
lock entry; a handle resolves iff it is a member. -/
abbrev Registry := List Int

/-- REPLICA_LOCKS.insert as performed by nativeInitialize (line 153):
ensures the handle owns a lock entry. -/
def registryInsert (reg : Registry) (p : Int) : Registry :=
  if p ∈ reg then reg else p :: reg

/-- REPLICA_LOCKS.remove as performed by nativeDestroy (line 173). -/
def registryRemove (reg : Registry) (p : Int) : Registry :=
  reg.erase p

/-- nativeDestroy (src/jni_bindings.rs lines 159-184): a zero handle only
logs and returns; for every nonzero handle the lock entry is removed when
present (a missing entry is only logged) and then Box::from_raw releases
the store resources unconditionally. The boolean records whether the
Box::from_raw drop was executed. -/
def nativeDestroy (reg : Registry) (p : Int) : Registry × Bool :=
  if p = 0 then (reg, false)
  else (registryRemove reg p, true)

/-- One registry-affecting call: nativeInitialize registers the freshly
minted (address-derived) handle, nativeDestroy removes one. -/
inductive RegOp where
  | register (p : Int)
  | remove (p : Int)
deriving DecidableEq

/-- Effect of one registry operation on the lock table. -/
def applyRegOp (reg : Registry) : RegOp → Registry
  | RegOp.register p => registryInsert reg p
  | RegOp.remove p => registryRemove reg p

/-- Run a sequence of registry operations. -/
def runRegOps (reg : Registry) (ops : List RegOp) : Registry :=
  ops.foldl applyRegOp reg

/- ----------------------------------------------------------------- -/
/- Undo (nativeUndo)                                                  -/
/- ----------------------------------------------------------------- -/

/-- Outcome of Replica::get_undo_operations as observed by nativeUndo. -/
inductive UndoFetch where
  | fetchErr
  | fetched (ops : List Op)
deriving DecidableEq

/-- Outcome of Replica::commit_reversed_operations: an error, or a boolean
saying whether the reversal applied cleanly (false = concurrent changes
since the checkpoint prevented a clean reversal). -/
inductive CommitRev where
  | commitErr
  | committed (applied : Bool)
deriving DecidableEq

/-- nativeUndo (src/jni_bindings.rs lines 189-233). The first component is
the jboolean returned to the host; the second records whether
commit_reversed_operations was invoked at all (false means the store was
left untouched). The parameter c is the outcome commit_reversed_operations
would produce when invoked. -/
def nativeUndo (g : UndoFetch) (c : CommitRev) : Nat × Bool :=
  match g with
  | UndoFetch.fetchErr => (0, false)
  | UndoFetch.fetched ops =>
      if ops.isEmpty then (0, false)
      else
        match c with
        | CommitRev.committed true => (1, true)
        | CommitRev.committed false => (0, true)
        | CommitRev.commitErr => (0, true)

/- ----------------------------------------------------------------- -/
/- Sync configuration parsing (nativeSync, lines 1203-1372)           -/
/- ----------------------------------------------------------------- -/

/-- The part of a parsed JSON document nativeSync inspects: string fields
and nested objects (serde_json::Value restricted to the shapes the parser
reads). -/
inductive JVal where
  | str (s : String)
  | obj (fields : List (String × JVal))

/-- Value::get on an object (none on a non-object). -/
def jget : JVal → String → Option JVal
  | JVal.str _, _ => none
  | JVal.obj fields, k => List.lookup k fields

/-- Value::as_str. -/
def JVal.asStr : JVal → Option String
  | JVal.str s => some s
  | JVal.obj _ => none

/-- get(k).and_then(as_str), the access pattern used throughout the
parser. -/
def jgetStr (j : JVal) (k : String) : Option String :=
  (jget j k).bind JVal.asStr

/-- A single apostrophe, as it appears in the error message strings. -/
def sq : String := String.singleton (Char.ofNat 39)

/-- The missing-field error message format used by nativeSync. -/
def missingMsg (f : String) : String :=
  "ERROR: Missing " ++ sq ++ f ++ sq ++ " field"

/-- AwsCredentials (taskchampion::server::AwsCredentials) as constructed by
the parser. -/
inductive AwsCredentials where
  | accessKey (accessKeyId secretAccessKey : String)
  | profile (profileName : String)
  | defaultCreds
deriving DecidableEq

/-- taskchampion ServerConfig as constructed by the parser (the encryption
secret is kept as the string whose bytes the code takes). -/
inductive ServerConfig where
  | gcp (bucket : String) (credentialPath : Option String) (encryptionSecret : String)
  | aws (region bucket : String) (credentials : AwsCredentials) (encryptionSecret : String)
deriving DecidableEq

/-- The validation/decoding pipeline of nativeSync (src/jni_bindings.rs
lines 1215-1372), transcribed check for check in source order: presence of
"type", presence of "bucket", presence and non-emptiness of
"encryption_secret", then the match on the server type (recognition plus
backend-specific fields). Errors carry the exact message the native call
returns to the host. -/
def parseServerConfig (j : JVal) : Except String ServerConfig :=
  match jgetStr j "type" with
  | none => Except.error (missingMsg "type")
  | some serverType =>
    match jgetStr j "bucket" with
    | none => Except.error (missingMsg "bucket")
    | some bucket =>
      match jgetStr j "encryption_secret" with
      | none => Except.error (missingMsg "encryption_secret")
      | some secret =>
        if secret = "" then Except.error "ERROR: Empty encryption secret"
        else if serverType = "gcp" then
          Except.ok (ServerConfig.gcp bucket (jgetStr j "credential_path") secret)
        else if serverType = "aws" then
          match jgetStr j "region" with
          | none => Except.error (missingMsg "region" ++ " for AWS")
          | some region =>
            match jget j "credentials" with
            | none => Except.error (missingMsg "credentials" ++ " for AWS")
            | some credData =>
              match jgetStr credData "type" with
              | none => Except.error (missingMsg "type" ++ " in AWS credentials")
              | some credType =>
                if credType = "access_key" then
                  match jgetStr credData "access_key_id" with
                  | none => Except.error (missingMsg "access_key_id")
                  | some akid =>
                    match jgetStr credData "secret_access_key" with
                    | none => Except.error (missingMsg "secret_access_key")
                    | some sak =>
                      Except.ok (ServerConfig.aws region bucket
                        (AwsCredentials.accessKey akid sak) secret)
                else if credType = "profile" then
                  match jgetStr credData "profile_name" with
                  | none => Except.error (missingMsg "profile_name")
                  | some pn =>
                    Except.ok (ServerConfig.aws region bucket
                      (AwsCredentials.profile pn) secret)
                else if credType = "default" then
                  Except.ok (ServerConfig.aws region bucket
                    AwsCredentials.defaultCreds secret)
                else
                  Except.error ("ERROR: Unknown AWS credential type: " ++ credType)
        else
          Except.error ("ERROR: Unknown server type: " ++ serverType)

/-- Outcome of the remote replica.sync call inside the panic handler:
clean success, a typed error, or an abnormal termination caught by
catch_unwind. -/
inductive RemoteOutcome where
  | ok
  | failed (e : String)
  | abnormal
deriving DecidableEq

/-- The string nativeSync returns once the remote call has run
(src/jni_bindings.rs lines 1390-1428): on remote success the result of the
forced working-set rebuild is only logged, and "SUCCESS" is returned in
both rebuild branches. -/
def syncAfterLock (remote : RemoteOutcome) (rebuild : Except String Unit) : String :=
  match remote with
  | RemoteOutcome.ok =>
      match rebuild with
      | Except.ok _ => "SUCCESS"
      | Except.error _ => "SUCCESS"
  | RemoteOutcome.failed e => "ERROR: Sync failed - " ++ e
  | RemoteOutcome.abnormal =>
      "ERROR: Sync failed due to TLS certificate issue on Android. This is a known limitation with AWS sync on Android."

/-- The replica state a sync call can touch: the task store and the
positional working-set index. -/
structure ReplicaState where
  tasks : Store
  workingSet : List (Option Uuid)
deriving DecidableEq

/-- nativeSync (src/jni_bindings.rs lines 1172-1440) for a valid handle:
configuration parsing runs before the replica lock is taken, so a parse
error returns its message with the replica state untouched; then server
construction (into_server), then the remote call and the rebuild. The
parameters server, remote, stAfter and rebuild stand for the outcomes of
the external server/remote steps: stAfter is the replica state after a
completed remote call. -/
def nativeSync (j : JVal) (st : ReplicaState) (server : Except String Unit)
    (remote : RemoteOutcome) (stAfter : ReplicaState)
    (rebuild : Except String Unit) : String × ReplicaState :=
  match parseServerConfig j with
  | Except.error msg => (msg, st)
  | Except.ok _ =>
    match server with
    | Except.error e => ("ERROR: Failed to create server - " ++ e, st)
    | Except.ok _ => (syncAfterLock remote rebuild, stAfter)

/- ----------------------------------------------------------------- -/
/- Task operations (batch construction and commit)                    -/
/- ----------------------------------------------------------------- -/

/-- The operation that stamps the "modified" field, as appended by every
native mutation path: task.set_value("modified", Some(now), &mut ops). -/
def stampOp (u : Uuid) (now : String) : Op :=
  Op.setValue u "modified" (some now)

/-- nativeCreateTask (src/jni_bindings.rs lines 305-363) for a valid,
parsed id: one batch holding the create and the "entry" and "modified"
stamps, both set to the same current-time string, committed as a unit. -/
def nativeCreateTask (st : Store) (u : Uuid) (now : String) : Store :=
  commitOps st
    [Op.create u, Op.setValue u "entry" (some now), stampOp u now]

/-- nativeTaskAddTag (src/jni_bindings.rs lines 614-692) for a valid tag:
an absent task is only logged (no commit); otherwise the add and the
"modified" stamp commit as one batch. -/
def nativeTaskAddTag (st : Store) (u : Uuid) (tg : String) (now : String) : Store :=
  match List.lookup u st with
  | none => st
  | some _ => commitOps st [Op.addTag u tg, stampOp u now]

/-- nativeTaskRemoveTag (src/jni_bindings.rs lines 695-773) for a valid
tag: an absent task is only logged; otherwise the removal and the
"modified" stamp commit as one batch. -/
def nativeTaskRemoveTag (st : Store) (u : Uuid) (tg : String) (now : String) : Store :=
  match List.lookup u st with
  | none => st
  | some _ => commitOps st [Op.removeTag u tg, stampOp u now]

/-- The mutating commands the bridge executes (one per native entry point;
Sync is handled separately above). -/
inductive Cmd where
  | createTask (u : Uuid)
  | setDescription (u : Uuid) (d : String)
  | setStatus (u : Uuid) (s : Status)
  | setValue (u : Uuid) (k : String) (v : Option String)
  | addTag (u : Uuid) (t : String)
  | removeTag (u : Uuid) (t : String)
  | addAnnot (u : Uuid) (d : String)
  | rmAnnot (u : Uuid) (entry : Int)
  | clearAll
deriving DecidableEq

/-- The entity a command targets (clearAll targets every existing entity,
so it has no single target). -/
def Cmd.target : Cmd → Option Uuid
  | Cmd.createTask u => some u
  | Cmd.setDescription u _ => some u
  | Cmd.setStatus u _ => some u
  | Cmd.setValue u _ _ => some u
  | Cmd.addTag u _ => some u
  | Cmd.removeTag u _ => some u
  | Cmd.addAnnot u _ => some u
  | Cmd.rmAnnot u _ => some u
  | Cmd.clearAll => none

/-- The operation batch a command commits, transcribed from the native
functions in src/jni_bindings.rs: none when the command commits nothing
(target entity absent). now is the current-time string, e the annotation
entry timestamp taken in nativeTaskAddAnnotation. clearAll
(clear_all_tasks_internal, lines 1148-1167) pushes an undo point and one
deleted-status update per existing entity, and nothing else.
nativeTaskSetValue (lines 524-611) skips the stamp exactly when the key
being set is "modified". -/
def buildBatch (st : Store) (now : String) (e : Int) : Cmd → Option (List Op)
  | Cmd.createTask u =>
      some [Op.create u, Op.setValue u "entry" (some now), stampOp u now]
  | Cmd.setDescription u d =>
      (List.lookup u st).map fun _ => [Op.setDescription u d, stampOp u now]
  | Cmd.setStatus u s =>
      (List.lookup u st).map fun _ => [Op.setStatus u s, stampOp u now]
  | Cmd.setValue u k v =>
      (List.lookup u st).map fun _ =>
        [Op.setValue u k v] ++ (if k = "modified" then [] else [stampOp u now])
  | Cmd.addTag u t =>
      (List.lookup u st).map fun _ => [Op.addTag u t, stampOp u now]
  | Cmd.removeTag u t =>
      (List.lookup u st).map fun _ => [Op.removeTag u t, stampOp u now]
  | Cmd.addAnnot u d =>
      (List.lookup u st).map fun _ => [Op.addAnnot u e d, stampOp u now]
  | Cmd.rmAnnot u en =>
      (List.lookup u st).map fun _ => [Op.rmAnnot u en, stampOp u now]
  | Cmd.clearAll =>
      some (Op.undoPoint :: st.map fun p => Op.setStatus p.1 Status.deleted)

/-- Whether an operation sets the "modified" field of entity u. -/
def setsModified (o : Op) (u : Uuid) : Bool :=
  match o with
  | Op.setValue v k _ => v == u && k == "modified"
  | _ => false

/-- The commands whose batch deliberately omits the "modified" stamp in
the source: a SetField that itself targets "modified" (lines 586-592), and
clearAll (lines 1148-1167, which stamps nothing). -/
def stampExempt : Cmd → Bool
  | Cmd.setValue _ k _ => k == "modified"
  | Cmd.clearAll => true
  | _ => false

/- ----------------------------------------------------------------- -/
/- Queries: getTaskData and the positional index                      -/
/- ----------------------------------------------------------------- -/

/-- Insert a list of key/value pairs into a field map in order
(HashMap-insert semantics). -/
def insertKVs (m : List (String × String)) (kvs : List (String × String)) :
    List (String × String) :=
  kvs.foldl (fun acc p => setKV acc p.1 p.2) m

/-- The tag_i entries nativeGetTaskData adds (lines 1013-1019). -/
def tagEntries (tags : List String) : List (String × String) :=
  tags.enum.map fun p => ("tag_" ++ toString p.1, p.2)

/-- The annotation_i_entry / annotation_i_description entries
nativeGetTaskData adds (lines 1021-1028). -/
def annotEntries (annots : List (Int × String)) : List (String × String) :=
  annots.enum.flatMap fun p =>
    [("annotation_" ++ toString p.1 ++ "_entry", toString p.2.1),
     ("annotation_" ++ toString p.1 ++ "_description", p.2.2)]

/-- nativeGetTaskData (src/jni_bindings.rs lines 962-1069) for a valid,
parsed id, success path: an absent task yields the empty document; a
present task yields its field map merged with the tag and annotation
entries and, last, the "uuid" key set to the id. Both store reads
(get_task and get_task_data) happen under the same lock and see the same
task. -/
def nativeGetTaskData (st : Store) (u : Uuid) : Option (List (String × String)) :=
  match List.lookup u st with
  | none => some []
  | some t =>
      some (setKV
        (insertKVs (insertKVs (insertKVs [] t.fields) (tagEntries t.tags))
          (annotEntries t.annots))
        "uuid" (toString u))

/-- nativeGetUuidForIndex (src/jni_bindings.rs lines 1072-1115): the
working set is the positional index, one optional entity id per 0-based
slot; the incoming position is 1-based. The null JString returned for an
out-of-range position, a cleared slot or a nil id is modelled as none. -/
def nativeGetUuidForIndex (ws : List (Option Uuid)) (index : Int) : Option Uuid :=
  if 0 < index ∧ index.toNat ≤ ws.length then
    match ws.getD (index.toNat - 1) none with
    | some u => if u ≠ 0 then some u else none
    | none => none
  else none

/- ----------------------------------------------------------------- -/
/- Helper lemmas                                                      -/
/- ----------------------------------------------------------------- -/

/-- Looking up the updated id after updateTask sees the function applied
to whatever was there before. -/
theorem lookup_updateTask (st : Store) (u : Uuid) (f : Task → Task) :
    List.lookup u (updateTask st u f) = (List.lookup u st).map f := by
  induction st with
  | nil => rfl
  | cons a rest ih =>
    obtain ⟨k, t⟩ := a
    simp only [updateTask, List.map_cons]
    by_cases hk : k = u
    · subst hk
      rw [if_pos rfl]
      simp [List.lookup]
    · rw [if_neg hk]
      have hku : (u == k) = false := beq_eq_false_iff_ne.mpr (Ne.symm hk)
      simp only [List.lookup, hku]
      exact ih

/- ----------------------------------------------------------------- -/
/- C1: destroy with an unknown handle                                 -/
/- ----------------------------------------------------------------- -/

/-- C1: evaluation of nativeDestroy at the failing input. The claim says a
handle unknown to the registry makes destroy log and return with all state
unchanged, releasing resources only for known handles; but for the nonzero
handle 5, unknown to an empty registry, the code still executes the
Box::from_raw release (second component true). Only handle 0 takes the
log-and-return path. -/
theorem C1_destroy_eval :
    nativeDestroy ([] : Registry) 5 = (([] : Registry), true) ∧
      (5 : Int) ∉ ([] : Registry) ∧
      nativeDestroy ([] : Registry) 0 = (([] : Registry), false) := by
  refine ⟨rfl, ?_, rfl⟩
  simp

/- ----------------------------------------------------------------- -/
/- C3: undo outcomes                                                  -/
/- ----------------------------------------------------------------- -/

/-- C3 counterexample: the claim says undo has three mutually
distinguishable outcomes, but the jboolean the host receives is 0 both
when there is nothing to undo and when the reversal hits a conflict
(commit_reversed_operations returns false), so the two outcomes are
indistinguishable to the caller. -/
theorem C3_counterexample :
    (nativeUndo (UndoFetch.fetched []) (CommitRev.committed true)).1
      = (nativeUndo (UndoFetch.fetched [Op.undoPoint]) (CommitRev.committed false)).1 :=
  rfl

/-- C3 amended: nativeUndo collapses its outcomes into one boolean. It
returns 1 exactly when there were pending reversible operations and the
reversal applied cleanly; nothing-to-undo, conflict and error outcomes all
return 0, and in the nothing-to-undo case commit_reversed_operations is
never invoked, leaving the store unchanged. -/
theorem C3_undo_boolean (g : UndoFetch) (c : CommitRev) :
    ((nativeUndo g c).1 = 1 ↔
      (c = CommitRev.committed true ∧
        ∃ ops, g = UndoFetch.fetched ops ∧ ops ≠ [])) ∧
    (g = UndoFetch.fetched [] → nativeUndo g c = (0, false)) := by
  cases g with
  | fetchErr =>
    refine ⟨by simp [nativeUndo], fun h => absurd h (by simp)⟩
  | fetched ops =>
    cases ops with
    | nil => exact ⟨by simp [nativeUndo], fun _ => rfl⟩
    | cons o os =>
      refine ⟨?_, fun h => by simp at h⟩
      cases c with
      | commitErr => simp [nativeUndo]
      | committed b => cases b <;> simp [nativeUndo, List.cons_ne_nil]

/-- C3 witness: the nothing-to-undo case at a concrete input, via the
amended theorem. -/
theorem C3_undo_boolean_witness :
    nativeUndo (UndoFetch.fetched []) (CommitRev.committed true) = (0, false) :=
  (C3_undo_boolean (UndoFetch.fetched []) (CommitRev.committed true)).2 rfl

/- ----------------------------------------------------------------- -/
/- C7: permanence of handle invalidation                              -/
/- ----------------------------------------------------------------- -/

/-- C7 counterexample: the claim says a handle removed from the registry
can never resolve again under any subsequent registry operations; but
after removing handle 5, a later initialize whose address-derived handle
is again 5 re-registers it, and 5 resolves. -/
theorem C7_counterexample :
    (5 : Int) ∈ runRegOps ([5] : Registry) [RegOp.remove 5, RegOp.register 5] := by
  decide

/-- C7 amended: a removed handle stays unresolvable exactly as long as no
later registration mints the same handle value: if hv is absent and the
subsequent operations contain no register of hv, hv never resolves. -/
theorem C7_registry_no_reuse (reg : Registry) (ops : List RegOp) (hv : Int)
    (h0 : hv ∉ reg) (hops : ∀ op ∈ ops, op ≠ RegOp.register hv) :
    hv ∉ runRegOps reg ops := by
  induction ops generalizing reg with
  | nil => exact h0
  | cons op rest ih =>
    have hhead : op ≠ RegOp.register hv := hops op (List.mem_cons_self _ _)
    have hrest : ∀ o ∈ rest, o ≠ RegOp.register hv :=
      fun o ho => hops o (List.mem_cons_of_mem _ ho)
    have hnext : hv ∉ applyRegOp reg op := by
      cases op with
      | register p =>
        have hp : p ≠ hv := fun h => hhead (by rw [h])
        simp only [applyRegOp, registryInsert]
        by_cases hmem : p ∈ reg
        · simpa [hmem] using h0
        · simp only [if_neg hmem, List.mem_cons]
          rintro (h | h)
          · exact hp h.symm
          · exact h0 h
      | remove p =>
        simp only [applyRegOp, registryRemove]
        intro hmem
        exact h0 (List.mem_of_mem_erase hmem)
    exact ih (applyRegOp reg op) hnext hrest

/-- C7 witness: a concrete removed handle that is never re-registered
stays unresolvable. -/
theorem C7_registry_no_reuse_witness :
    (7 : Int) ∉ runRegOps ([5] : Registry) [RegOp.register 6, RegOp.remove 5] :=
  C7_registry_no_reuse [5] [RegOp.register 6, RegOp.remove 5] 7 (by decide) (by decide)

/- ----------------------------------------------------------------- -/
/- C2: the "modified" stamp invariant                                 -/
/- ----------------------------------------------------------------- -/

/-- C2 counterexample: the claim includes ClearAll among the commands
whose batch stamps "modified", but the batch clear_all_tasks_internal
commits for a store holding entity 1 is exactly an undo point plus the
deleted-status update, and none of its operations sets the "modified"
field of the (existing) entity 1. -/
theorem C2_counterexample :
    buildBatch [(1, Task.empty)] "100" 0 Cmd.clearAll
        = some [Op.undoPoint, Op.setStatus 1 Status.deleted] ∧
      List.all [Op.undoPoint, Op.setStatus 1 Status.deleted]
        (fun o => !(setsModified o 1)) = true ∧
      List.lookup 1 [(1, Task.empty)] = some Task.empty :=
  ⟨rfl, rfl, rfl⟩

/-- C2 amended: every mutating command other than a SetField that itself
targets "modified" and other than ClearAll commits a batch containing the
"modified" stamp for its target entity; ClearAll only marks every entity
deleted, with no stamp. -/
theorem C2_modified_stamp (st : Store) (now : String) (e : Int) (cmd : Cmd)
    (u : Uuid) (b : List Op)
    (ht : Cmd.target cmd = some u) (hex : stampExempt cmd = false)
    (hb : buildBatch st now e cmd = some b) :
    stampOp u now ∈ b := by
  cases cmd with
  | createTask v =>
    simp only [Cmd.target, Option.some_inj] at ht
    subst ht
    simp only [buildBatch, Option.some_inj] at hb
    subst hb
    simp
  | setDescription v d =>
    simp only [Cmd.target, Option.some_inj] at ht
    subst ht
    simp only [buildBatch] at hb
    obtain ⟨w, hw, hbw⟩ := Option.map_eq_some'.mp hb
    subst hbw
    simp
  | setStatus v s =>
    simp only [Cmd.target, Option.some_inj] at ht
    subst ht
    simp only [buildBatch] at hb
    obtain ⟨w, hw, hbw⟩ := Option.map_eq_some'.mp hb
    subst hbw
    simp
  | setValue v k val =>
    simp only [Cmd.target, Option.some_inj] at ht
    subst ht
    have hk : k ≠ "modified" := by
      simpa [stampExempt] using hex
    simp only [buildBatch] at hb
    obtain ⟨w, hw, hbw⟩ := Option.map_eq_some'.mp hb
    subst hbw
    rw [if_neg hk]
    simp
  | addTag v t =>
    simp only [Cmd.target, Option.some_inj] at ht
    subst ht
    simp only [buildBatch] at hb
    obtain ⟨w, hw, hbw⟩ := Option.map_eq_some'.mp hb
    subst hbw
    simp
  | removeTag v t =>
    simp only [Cmd.target, Option.some_inj] at ht
    subst ht
    simp only [buildBatch] at hb
    obtain ⟨w, hw, hbw⟩ := Option.map_eq_some'.mp hb
    subst hbw
    simp
  | addAnnot v d =>
    simp only [Cmd.target, Option.some_inj] at ht
    subst ht
    simp only [buildBatch] at hb
    obtain ⟨w, hw, hbw⟩ := Option.map_eq_some'.mp hb
    subst hbw
    simp
  | rmAnnot v en =>
    simp only [Cmd.target, Option.some_inj] at ht
    subst ht
    simp only [buildBatch] at hb
    obtain ⟨w, hw, hbw⟩ := Option.map_eq_some'.mp hb
    subst hbw
    simp
  | clearAll =>
    exact absurd ht (by simp [Cmd.target])

/-- C2 witness: the addTag batch for an existing entity carries the
stamp. -/
theorem C2_modified_stamp_witness :
    stampOp 1 "100" ∈ [Op.addTag 1 "work", stampOp 1 "100"] :=
  C2_modified_stamp [(1, Task.empty)] "100" 0 (Cmd.addTag 1 "work") 1
    [Op.addTag 1 "work", stampOp 1 "100"] rfl rfl rfl

/- ----------------------------------------------------------------- -/
/- C4: createEntity then getEntityData                                -/
/- ----------------------------------------------------------------- -/

/-- After nativeCreateTask the store holds, under the new id, a task whose
field map is exactly the "entry" and "modified" stamps, both equal to the
same current-time string. -/
theorem createTask_lookup (st : Store) (u : Uuid) (now : String) :
    List.lookup u (nativeCreateTask st u now)
      = some ⟨[("entry", now), ("modified", now)], [], [], Status.pending, ""⟩ := by
  unfold nativeCreateTask commitOps
  simp only [List.foldl_cons, List.foldl_nil, applyOp, stampOp]
  rw [lookup_updateTask, lookup_updateTask]
  simp only [List.lookup, beq_self_eq_true]
  rfl

/-- C4: for an unused id, createEntity followed by getEntityData yields a
document holding the id under "uuid" and whose "entry" and "modified"
fields are equal (both the creation-time stamp written in one batch). -/
theorem C4_create_then_get (st : Store) (u : Uuid) (now : String)
    (h : List.lookup u st = none) :
    nativeGetTaskData (nativeCreateTask st u now) u
        = some [("entry", now), ("modified", now), ("uuid", toString u)] ∧
      getKV [("entry", now), ("modified", now), ("uuid", toString u)] "entry"
        = getKV [("entry", now), ("modified", now), ("uuid", toString u)] "modified" ∧
      getKV [("entry", now), ("modified", now), ("uuid", toString u)] "entry"
        = some now ∧
      getKV [("entry", now), ("modified", now), ("uuid", toString u)] "uuid"
        = some (toString u) := by
  refine ⟨?_, rfl, rfl, rfl⟩
  unfold nativeGetTaskData
  rw [createTask_lookup]
  rfl

/-- C4 witness: a concrete creation in an empty store. -/
theorem C4_create_then_get_witness :
    nativeGetTaskData (nativeCreateTask ([] : Store) 1 "100") 1
      = some [("entry", "100"), ("modified", "100"), ("uuid", toString (1 : Nat))] :=
  (C4_create_then_get [] 1 "100" rfl).1

/- ----------------------------------------------------------------- -/
/- C5: sync configuration validation order                            -/
/- ----------------------------------------------------------------- -/

/-- C5 counterexample: the claim puts recognition of the backend type
first, but for a config whose type is the unrecognized "ftp" and whose
bucket is missing, the parser reports the missing bucket, not the unknown
type: recognition actually runs after the bucket and secret checks. -/
theorem C5_counterexample :
    parseServerConfig (JVal.obj [("type", JVal.str "ftp")])
        = Except.error (missingMsg "bucket") ∧
      missingMsg "bucket" ≠ "ERROR: Unknown server type: " ++ "ftp" := by
  exact ⟨rfl, by decide⟩

/-- C5 amended: validation order as implemented: presence of the backend
type first, then presence of the bucket, then presence and non-emptiness
of the encryption secret, and only then recognition of the backend type
(together with the backend-specific fields); the first failing check
determines the reported field. -/
theorem C5_validation_order (j : JVal) :
    (jgetStr j "type" = none →
        parseServerConfig j = Except.error (missingMsg "type")) ∧
    (∀ t, jgetStr j "type" = some t → jgetStr j "bucket" = none →
        parseServerConfig j = Except.error (missingMsg "bucket")) ∧
    (∀ t b, jgetStr j "type" = some t → jgetStr j "bucket" = some b →
        jgetStr j "encryption_secret" = none →
        parseServerConfig j = Except.error (missingMsg "encryption_secret")) ∧
    (∀ t b, jgetStr j "type" = some t → jgetStr j "bucket" = some b →
        jgetStr j "encryption_secret" = some "" →
        parseServerConfig j = Except.error "ERROR: Empty encryption secret") ∧
    (∀ t b s, jgetStr j "type" = some t → jgetStr j "bucket" = some b →
        jgetStr j "encryption_secret" = some s → s ≠ "" →
        t ≠ "gcp" → t ≠ "aws" →
        parseServerConfig j = Except.error ("ERROR: Unknown server type: " ++ t)) := by
  refine ⟨?_, ?_, ?_, ?_, ?_⟩
  · intro h
    unfold parseServerConfig
    rw [h]
  · intro t ht hb
    unfold parseServerConfig
    rw [ht, hb]
  · intro t b ht hb hs
    unfold parseServerConfig
    rw [ht, hb, hs]
  · intro t b ht hb hs
    unfold parseServerConfig
    rw [ht, hb, hs]
    simp
  · intro t b s ht hb hs hne hg ha
    unfold parseServerConfig
    rw [ht, hb, hs]
    simp [hne, hg, ha]

/-- C5 witness: a config with type and bucket but no secret reports the
missing secret. -/
theorem C5_validation_order_witness :
    parseServerConfig (JVal.obj [("type", JVal.str "aws"), ("bucket", JVal.str "b")])
      = Except.error (missingMsg "encryption_secret") :=
  (C5_validation_order
      (JVal.obj [("type", JVal.str "aws"), ("bucket", JVal.str "b")])).2.2.1
    "aws" "b" rfl rfl rfl

/- ----------------------------------------------------------------- -/
/- C6: missing encryption secret is a pure validation failure         -/
/- ----------------------------------------------------------------- -/

/-- On a config without an encryption secret the parser stops at one of
the three presence checks, each reporting its own missing field. -/
theorem parse_missing_secret (j : JVal)
    (hs : jgetStr j "encryption_secret" = none) :
    parseServerConfig j = Except.error (missingMsg "type") ∧ jgetStr j "type" = none
    ∨ parseServerConfig j = Except.error (missingMsg "bucket") ∧ jgetStr j "bucket" = none
    ∨ parseServerConfig j = Except.error (missingMsg "encryption_secret") := by
  cases ht : jgetStr j "type" with
  | none =>
    refine Or.inl ⟨?_, rfl⟩
    unfold parseServerConfig
    rw [ht]
  | some t =>
    cases hb : jgetStr j "bucket" with
    | none =>
      refine Or.inr (Or.inl ⟨?_, rfl⟩)
      unfold parseServerConfig
      rw [ht, hb]
    | some b =>
      refine Or.inr (Or.inr ?_)
      unfold parseServerConfig
      rw [ht, hb, hs]

/-- C6: a sync call whose config lacks the encryption secret returns an
ERROR-Missing message naming a field absent from the config, and leaves
the replica state (task store and positional index) exactly as it was:
validation runs before the lock is taken and performs no store access. -/
theorem C6_missing_secret (j : JVal) (st : ReplicaState)
    (server : Except String Unit) (remote : RemoteOutcome)
    (stAfter : ReplicaState) (rebuild : Except String Unit)
    (hs : jgetStr j "encryption_secret" = none) :
    (nativeSync j st server remote stAfter rebuild).2 = st ∧
    ((nativeSync j st server remote stAfter rebuild).1 = missingMsg "type"
        ∧ jgetStr j "type" = none
      ∨ (nativeSync j st server remote stAfter rebuild).1 = missingMsg "bucket"
        ∧ jgetStr j "bucket" = none
      ∨ (nativeSync j st server remote stAfter rebuild).1
          = missingMsg "encryption_secret") := by
  rcases parse_missing_secret j hs with ⟨hp, hT⟩ | ⟨hp, hB⟩ | hp
  · unfold nativeSync
    rw [hp]
    exact ⟨rfl, Or.inl ⟨rfl, hT⟩⟩
  · unfold nativeSync
    rw [hp]
    exact ⟨rfl, Or.inr (Or.inl ⟨rfl, hB⟩)⟩
  · unfold nativeSync
    rw [hp]
    exact ⟨rfl, Or.inr (Or.inr rfl)⟩

/-- C6 witness: a concrete secretless config leaves a concrete replica
state untouched and reports a missing field. -/
theorem C6_missing_secret_witness :
    (nativeSync (JVal.obj [("type", JVal.str "aws"), ("bucket", JVal.str "b")])
          (⟨[], []⟩ : ReplicaState) (Except.ok ()) RemoteOutcome.ok
          (⟨[(1, Task.empty)], []⟩ : ReplicaState) (Except.ok ())).2
        = (⟨[], []⟩ : ReplicaState) ∧
      ((nativeSync (JVal.obj [("type", JVal.str "aws"), ("bucket", JVal.str "b")])
            (⟨[], []⟩ : ReplicaState) (Except.ok ()) RemoteOutcome.ok
            (⟨[(1, Task.empty)], []⟩ : ReplicaState) (Except.ok ())).1 = missingMsg "type"
          ∧ jgetStr (JVal.obj [("type", JVal.str "aws"), ("bucket", JVal.str "b")]) "type"
              = none
        ∨ (nativeSync (JVal.obj [("type", JVal.str "aws"), ("bucket", JVal.str "b")])
            (⟨[], []⟩ : ReplicaState) (Except.ok ()) RemoteOutcome.ok
            (⟨[(1, Task.empty)], []⟩ : ReplicaState) (Except.ok ())).1 = missingMsg "bucket"
          ∧ jgetStr (JVal.obj [("type", JVal.str "aws"), ("bucket", JVal.str "b")]) "bucket"
              = none
        ∨ (nativeSync (JVal.obj [("type", JVal.str "aws"), ("bucket", JVal.str "b")])
            (⟨[], []⟩ : ReplicaState) (Except.ok ()) RemoteOutcome.ok
            (⟨[(1, Task.empty)], []⟩ : ReplicaState) (Except.ok ())).1
            = missingMsg "encryption_secret") :=
  C6_missing_secret (JVal.obj [("type", JVal.str "aws"), ("bucket", JVal.str "b")])
    ⟨[], []⟩ (Except.ok ()) RemoteOutcome.ok ⟨[(1, Task.empty)], []⟩ (Except.ok ()) rfl

/- ----------------------------------------------------------------- -/
/- C8: addTag / removeTag round trip                                  -/
/- ----------------------------------------------------------------- -/

/-- C8 counterexample: when the tag is already present before the pair of
calls, addTag is absorbed by the tag set and removeTag then deletes the
tag, so the final tag set differs from the prior one. -/
theorem C8_counterexample :
    (List.lookup 1 (nativeTaskRemoveTag
          (nativeTaskAddTag [(1, (⟨[], ["work"], [], Status.pending, ""⟩ : Task))]
            1 "work" "t1")
          1 "work" "t2")).map Task.tags = some [] ∧
      (List.lookup 1 [(1, (⟨[], ["work"], [], Status.pending, ""⟩ : Task))]).map Task.tags
        = some ["work"] :=
  ⟨rfl, rfl⟩

/-- C8 amended: for an existing entity and a tag not already in its tag
set, addTag followed by removeTag restores the tag set exactly; when the
tag was already present the pair of calls removes it instead. -/
theorem C8_roundtrip (st : Store) (u : Uuid) (tg now1 now2 : String) (tk : Task)
    (h1 : List.lookup u st = some tk) (h2 : tg ∉ tk.tags) :
    (List.lookup u (nativeTaskRemoveTag (nativeTaskAddTag st u tg now1) u tg now2)).map
        Task.tags = some tk.tags := by
  have h1a : List.lookup u (nativeTaskAddTag st u tg now1)
      = some { tk with
               tags := tk.tags ++ [tg],
               fields := setKV tk.fields "modified" now1 } := by
    unfold nativeTaskAddTag
    rw [h1]
    show List.lookup u
        (commitOps st [Op.addTag u tg, stampOp u now1]) = _
    unfold commitOps
    simp only [List.foldl_cons, List.foldl_nil, applyOp, stampOp]
    rw [lookup_updateTask, lookup_updateTask, h1]
    simp only [Option.map_some']
    rw [if_neg h2]
  unfold nativeTaskRemoveTag
  rw [h1a]
  show (List.lookup u
      (commitOps (nativeTaskAddTag st u tg now1) [Op.removeTag u tg, stampOp u now2])).map
      Task.tags = _
  unfold commitOps
  simp only [List.foldl_cons, List.foldl_nil, applyOp, stampOp]
  rw [lookup_updateTask, lookup_updateTask, h1a]
  simp only [Option.map_some']
  have hfil : tk.tags.filter (fun x => !(x == tg)) = tk.tags :=
    List.filter_eq_self.mpr fun x hx => by
      simp only [Bool.not_eq_true', beq_eq_false_iff_ne]
      exact fun hEq => h2 (hEq ▸ hx)
  simp [List.filter_append, hfil]

/-- C8 witness: the round trip on a concrete entity with an empty prior
tag set. -/
theorem C8_roundtrip_witness :
    (List.lookup 1 (nativeTaskRemoveTag
          (nativeTaskAddTag [(1, Task.empty)] 1 "work" "t1") 1 "work" "t2")).map Task.tags
      = some Task.empty.tags :=
  C8_roundtrip [(1, Task.empty)] 1 "work" "t1" "t2" Task.empty rfl (by simp [Task.empty])

/- ----------------------------------------------------------------- -/
/- C9: positional lookup                                              -/
/- ----------------------------------------------------------------- -/

/-- C9: nativeGetUuidForIndex returns an id exactly when the 1-based
position is within the index range, the 0-based slot it designates is
occupied, and the id there is not nil; every out-of-range position,
cleared slot or nil id yields the absent result. -/
theorem C9_position (ws : List (Option Uuid)) (index : Int) (u : Uuid) :
    nativeGetUuidForIndex ws index = some u ↔
      1 ≤ index ∧ index.toNat ≤ ws.length ∧
        ws.getD (index.toNat - 1) none = some u ∧ u ≠ 0 := by
  unfold nativeGetUuidForIndex
  by_cases hr : 0 < index ∧ index.toNat ≤ ws.length
  · rw [if_pos hr]
    obtain ⟨hr1, hr2⟩ := hr
    cases hslot : ws.getD (index.toNat - 1) none with
    | none =>
      constructor
      · intro h
        exact Option.noConfusion h
      · rintro ⟨-, -, hsome, -⟩
        exact Option.noConfusion hsome
    | some w =>
      change (if w ≠ 0 then some w else (none : Option Uuid)) = some u ↔ _
      by_cases hw : w ≠ 0
      · rw [if_pos hw]
        constructor
        · intro h
          obtain rfl : w = u := Option.some.inj h
          exact ⟨by omega, hr2, rfl, hw⟩
        · rintro ⟨-, -, hsome, -⟩
          obtain rfl : w = u := Option.some.inj hsome
          rfl
      · rw [if_neg hw]
        push_neg at hw
        constructor
        · intro h
          exact Option.noConfusion h
        · rintro ⟨-, -, hsome, hu⟩
          obtain rfl : w = u := Option.some.inj hsome
          exact absurd hw hu
  · rw [if_neg hr]
    constructor
    · intro h
      exact Option.noConfusion h
    · rintro ⟨h1, h2, -, -⟩
      exact absurd ⟨by omega, h2⟩ hr

/- ----------------------------------------------------------------- -/
/- C10: sync result ignores the rebuild outcome                       -/
/- ----------------------------------------------------------------- -/

/-- C10: when the remote synchronization succeeds, the value returned to
the host is "SUCCESS" whatever the forced working-set rebuild reported;
the rebuild outcome is only logged. -/
theorem C10_success_ignores_rebuild (rebuild : Except String Unit) :
    syncAfterLock RemoteOutcome.ok rebuild = "SUCCESS" := by
  cases rebuild <;> rfl

end TaskchampionJni
